import Mathlib

/-!
Verification of the Eduspace resource pipeline (frontend/components/KnowledgeHub.tsx,
frontend/services/api.ts, frontend/services/geminiService.ts, frontend/services/uploadService.ts).

The TypeScript functions `getFileTypeFromUrl`, `convertBackendNoteToFrontend`,
`handleSearch`, `handleGenerateSummary`, `handleSubmit`, `summarizeText` and
`generateSummary` are embedded shallowly below.  JavaScript string-falsiness
(`x || d`), `String.prototype.includes`, `startsWith`, `trim` and the
case-insensitive image-extension regex are modelled by executable helpers.
Asynchronous interleavings are modelled by splitting each handler into an
"issue" phase (the synchronous state updates before the `await`) and a
"resolve" phase (the continuation that runs when the response arrives); the
single-threaded event loop of the browser serializes these phases, so a run
of the program is a sequence of phase applications to the component state.
-/

/-- Boolean test that `pat` is a prefix of `l` (character lists). Models
JavaScript `String.prototype.startsWith` (first argument is the pattern). -/
def lcPre : List Char → List Char → Bool
  | [], _ => true
  | _ :: _, [] => false
  | a :: as, b :: bs => a == b && lcPre as bs

/-- Boolean test that `pat` occurs as a contiguous substring of `l`.
Models JavaScript `String.prototype.includes`. -/
def lcContains (pat : List Char) : List Char → Bool
  | [] => lcPre pat []
  | c :: cs => lcPre pat (c :: cs) || lcContains pat cs

/-- JS `s.startsWith(pat)`. -/
def strStartsWith (s pat : String) : Bool := lcPre pat.data s.data

/-- JS `s.includes(pat)`. -/
def strIncludes (s pat : String) : Bool := lcContains pat.data s.data

/-- ASCII whitespace recognizer used by the `trim` model. -/
def isWsChar (c : Char) : Bool := c = ' ' || c = '\t' || c = '\n' || c = '\r'

/-- JS `s.trim()`: drop leading and trailing whitespace. -/
def strTrim (s : String) : String :=
  ⟨((s.data.dropWhile isWsChar).reverse.dropWhile isWsChar).reverse⟩

/-- ASCII lower-casing of one character (sufficient for the URLs handled by
the classifier; models the `i` flag of the image-extension regex). -/
def lowerChar (c : Char) : Char :=
  if c.toNat ≥ 65 && c.toNat ≤ 90 then Char.ofNat (c.toNat + 32) else c

/-- ASCII lower-casing of a string. -/
def strLowerAscii (s : String) : String := ⟨s.data.map lowerChar⟩

/-- Boolean test that `pat` is a suffix of `s`. -/
def strEndsWith (s pat : String) : Bool := lcPre pat.data.reverse s.data.reverse

/-- The regex `/\.(jpg|jpeg|png|gif|webp)$/i` from `getFileTypeFromUrl` and
`convertBackendNoteToFrontend`: the URL ends, case-insensitively, in one of
the five image extensions. -/
def matchesImageExt (url : String) : Bool :=
  let l := strLowerAscii url
  strEndsWith l ".jpg" || strEndsWith l ".jpeg" || strEndsWith l ".png" ||
    strEndsWith l ".gif" || strEndsWith l ".webp"

/-- JavaScript `a || d` for a possibly-null/undefined string `a`: `null`,
`undefined` and the empty string are falsy, every other string is truthy. -/
def jsOr (a : Option String) (d : String) : String :=
  match a with
  | none => d
  | some s => if s = "" then d else s

/-- JavaScript truthiness of a possibly-null/undefined string. -/
def jsTruthy (a : Option String) : Bool :=
  match a with
  | none => false
  | some s => s ≠ ""

/-- JavaScript `a || d` where `a` is a (non-null) string. -/
def jsStrOr (a d : String) : String := if a = "" then d else a

/-- The frontend display categories (`'pdf' | 'docx' | 'image' | 'url' | 'other'`
in the `Note` interface of KnowledgeHub.tsx).  The spec's category name
`text` is the code's literal `'other'`. -/
inductive NoteType where
  | pdf
  | docx
  | image
  | url
  | other
deriving DecidableEq, Repr

/-- A raw backend record as consumed by `convertBackendNoteToFrontend`.
`none` models a missing (`undefined`) or `null` field; the backend may also
send the literal string `"None"` for an absent file URL. -/
structure RawNote where
  id : Option String
  title : Option String
  file_url : Option String
  summary : Option String
  extracted_content : Option String
  created_at : Option String
deriving DecidableEq, Repr

/-- The frontend `Note` record produced by `convertBackendNoteToFrontend`
(interface `Note` in KnowledgeHub.tsx; the uploader field is the constant
`{name: 'You', avatarUrl: ''}` and is omitted). -/
structure Note where
  id : String
  title : Option String
  type : NoteType
  url : String
  tags : List String
  uploadDate : String
  rating : Nat
  size : Option String
  content : String
  summary : String
deriving DecidableEq, Repr

/-- Embedding of `getFileTypeFromUrl` (KnowledgeHub.tsx): extension-based
inference with a final `startsWith('http')` rule mapping any other absolute
URL to `'url'`. -/
def getFileTypeFromUrl (url : String) : NoteType :=
  if url = "" then NoteType.other
  else if strIncludes url ".pdf" then NoteType.pdf
  else if strIncludes url ".docx" || strIncludes url ".doc" then NoteType.docx
  else if matchesImageExt url then NoteType.image
  else if strStartsWith url "http" then NoteType.url
  else NoteType.other

/-- Embedding of the `noteType` computation inside
`convertBackendNoteToFrontend` (KnowledgeHub.tsx).  The first branch keeps
the code's shape: when `file_url` is absent/empty/the literal `"None"`, the
type is `'other'` whether or not a summary is present (the code assigns
`'other'` inside `if (note.summary)` and `noteType` is initialized to
`'other'`). -/
def classifyNote (note : RawNote) : NoteType :=
  let fileUrl := jsOr note.file_url ""
  if fileUrl = "" ∨ fileUrl = "None" then
    if jsTruthy note.summary then NoteType.other else NoteType.other
  else if strStartsWith fileUrl "http://" || strStartsWith fileUrl "https://" then
    if strIncludes fileUrl ".pdf" then NoteType.pdf
    else if strIncludes fileUrl ".docx" || strIncludes fileUrl ".doc" then NoteType.docx
    else if matchesImageExt fileUrl then NoteType.image
    else if !strIncludes fileUrl "/uploads/" && !strIncludes fileUrl "cloudinary" && !strIncludes fileUrl "res.cloudinary.com" then NoteType.url
    else getFileTypeFromUrl fileUrl
  else getFileTypeFromUrl fileUrl

/-- Embedding of `convertBackendNoteToFrontend` (KnowledgeHub.tsx).  The
`now` argument stands for `new Date().toISOString()`.  The function fails
(models the thrown `TypeError`) exactly when `note.id` is `null`/missing,
because the code evaluates `note.id.toString()` unconditionally; all other
fields are filled best-effort. -/
def convertBackendNoteToFrontend (now : String) (note : RawNote) : Except String Note :=
  let fileUrl := jsOr note.file_url ""
  let noteType := classifyNote note
  match note.id with
  | none => Except.error "TypeError: Cannot read properties of null (reading toString)"
  | some i =>
      Except.ok
        { id := i
          title := note.title
          type := noteType
          url :=
            if fileUrl ≠ "" ∧ fileUrl ≠ "None" then fileUrl
            else if noteType = NoteType.url ∧ jsTruthy note.summary then (note.summary).getD ""
            else "#"
          tags := []
          uploadDate := jsOr note.created_at now
          rating := 0
          size := some ""
          content := jsOr note.extracted_content (jsOr note.summary "")
          summary := jsOr note.summary "" }

/-- The `backendNotes.map(convertBackendNoteToFrontend)` step: a thrown
`TypeError` on any record aborts the whole map (so the surrounding `catch`
fires), otherwise the normalized list is produced in order. -/
def normalizeAll (now : String) : List RawNote → Except String (List Note)
  | [] => Except.ok []
  | r :: rs =>
      match convertBackendNoteToFrontend now r with
      | Except.error e => Except.error e
      | Except.ok n =>
          match normalizeAll now rs with
          | Except.error e => Except.error e
          | Except.ok ns => Except.ok (n :: ns)

/-- Whether conversion succeeded. -/
def exceptIsOk : Except String Note → Bool
  | Except.ok _ => true
  | Except.error _ => false

/-- The successfully converted note, if any. -/
def exceptGet : Except String Note → Option Note
  | Except.ok n => some n
  | Except.error _ => none

/-- The conversion error, if any. -/
def exceptErr : Except String Note → Option String
  | Except.ok _ => none
  | Except.error e => some e

/-- The "Open Link / Open File" guard of the notes grid (KnowledgeHub.tsx:
the button renders only when the type is url/pdf/docx/image and
`note.url && note.url !== '#'`): the note carries a dereferenceable URL. -/
def noteHasOpenableUrl (n : Note) : Bool :=
  (n.type = NoteType.url || n.type = NoteType.pdf || n.type = NoteType.docx ||
    n.type = NoteType.image) && n.url ≠ "" && n.url ≠ "#"

/-- The example record of spec property 8:
`{id:"7", title:"Notes", file_url:null, summary:"Key ideas on recursion"}`. -/
def c4Record : RawNote :=
  { id := some "7"
    title := some "Notes"
    file_url := none
    summary := some "Key ideas on recursion"
    extracted_content := none
    created_at := none }

/-- The example record of spec property 9: a Cloudinary-hosted PDF. -/
def c5PdfRecord : RawNote :=
  { id := some "9"
    title := none
    file_url := some "https://res.cloudinary.com/x/upload/v1/doc.pdf"
    summary := none
    extracted_content := none
    created_at := none }

/-- Sanity check (spec property 8): the null-file_url record classifies as
the text category `'other'`. -/
theorem classifyNote_c4Record : classifyNote c4Record = NoteType.other := by decide

/-- Sanity check (spec property 9): a Cloudinary-hosted `.pdf` URL
classifies as `'pdf'`. -/
theorem classifyNote_c5PdfRecord : classifyNote c5PdfRecord = NoteType.pdf := by decide

/-- A prefix of a prefix of `l` is a prefix of `l`. -/
theorem lcPre_weaken : ∀ (q p l : List Char), lcPre q p = true → lcPre p l = true → lcPre q l = true
  | [], _, _, _, _ => rfl
  | _ :: _, [], _, h, _ => by simp [lcPre] at h
  | _ :: _, _ :: _, [], _, h2 => by simp [lcPre] at h2
  | a :: as, b :: bs, c :: cs, h1, h2 => by
      simp only [lcPre, Bool.and_eq_true, beq_iff_eq] at h1 h2 ⊢
      exact ⟨h1.1.trans h2.1, lcPre_weaken as bs cs h1.2 h2.2⟩

/-! ## SearchController: `handleSearch` in KnowledgeHub.tsx -/

/-- The state owned by `handleSearch`: the displayed notes list, the
`isSearching` flag, the toast notifications raised so far (newest first; a
`toast.error` call prepends), and the query string. -/
structure SearchState where
  notes : List Note
  isSearching : Bool
  toasts : List String
  searchQuery : String
deriving DecidableEq, Repr

/-- Outcome of an awaited `getNotes()` / `searchResources(query)` call:
either the raw records of a successful response, or a rejection. -/
inductive FetchOutcome where
  | ok (records : List RawNote)
  | fail (msg : String)
deriving DecidableEq, Repr

/-- The synchronous part of `handleSearch(query)` that runs before the
`await`: `setSearchQuery(query)` always, and `setIsSearching(true)` in the
filtered-search branch (queries of trimmed length at least 2). -/
def issueSearch (query : String) (s : SearchState) : SearchState :=
  let s1 := { s with searchQuery := query }
  if (strTrim query).length < 2 then s1 else { s1 with isSearching := true }

/-- The continuation of `handleSearch(query)` that runs when its request
settles.  Short-query branch: on success the list is replaced and
`isSearching` cleared; the `catch` only calls `console.error` (no toast, no
state change).  Filtered branch: on success the list is replaced; the
`catch` raises the `'Search failed'` toast; the `finally` clears
`isSearching`.  A conversion `TypeError` inside the `try` behaves like a
rejection of that `try` block. -/
def resolveSearch (now query : String) (outcome : FetchOutcome) (s : SearchState) : SearchState :=
  if (strTrim query).length < 2 then
    match outcome with
    | FetchOutcome.ok records =>
        match normalizeAll now records with
        | Except.ok l => { s with notes := l, isSearching := false }
        | Except.error _ => s
    | FetchOutcome.fail _ => s
  else
    let s2 :=
      match outcome with
      | FetchOutcome.ok records =>
          match normalizeAll now records with
          | Except.ok l => { s with notes := l }
          | Except.error _ => { s with toasts := "Search failed" :: s.toasts }
      | FetchOutcome.fail _ => { s with toasts := "Search failed" :: s.toasts }
    { s2 with isSearching := false }

/-- One complete, un-interleaved run of `handleSearch(query)` whose request
settles with `outcome`. -/
def handleSearch (now query : String) (outcome : FetchOutcome) (s : SearchState) : SearchState :=
  resolveSearch now query outcome (issueSearch query s)

/-! ## SummaryOrchestrator: `handleGenerateSummary` in KnowledgeHub.tsx,
`summarizeText` in geminiService.ts, `generateSummary` in api.ts -/

/-- The summary-related component state: `selectedNote`,
`isSummaryModalOpen`, `summary`, `isGeneratingSummary`, `summaryError`. -/
structure SummaryState where
  selectedNote : Option Note
  isSummaryModalOpen : Bool
  summary : String
  isGeneratingSummary : Bool
  summaryError : Option String
deriving DecidableEq, Repr

/-- Outcome of the awaited `apiClient.post('/summarize', ...)` call: a
successful summary, a server response with failure status carrying an
optional `detail`, or a network error with an error message. -/
inductive ApiOutcome where
  | ok (summary : String)
  | serverError (detail : Option String)
  | networkError (msg : String)
deriving DecidableEq, Repr

/-- Embedding of `generateSummary` (api.ts): on a server error it throws
`new Error(error.response.data.detail || 'Failed to generate summary')`;
a network error is rethrown unchanged. -/
def generateSummary : ApiOutcome → Except String String
  | ApiOutcome.ok s => Except.ok s
  | ApiOutcome.serverError d => Except.error (jsOr d "Failed to generate summary")
  | ApiOutcome.networkError m => Except.error m

/-- Embedding of `summarizeText` (geminiService.ts): it forwards a
successful summary and replaces EVERY error with
`new Error("Failed to get summary. Please try again.")`. -/
def summarizeText (o : ApiOutcome) : Except String String :=
  match generateSummary o with
  | Except.ok s => Except.ok s
  | Except.error _ => Except.error "Failed to get summary. Please try again."

/-- The synchronous part of `handleGenerateSummary(note)` that runs before
the `await`: select the note, open the modal, set loading, clear error and
summary. -/
def startSummary (n : Note) (s : SummaryState) : SummaryState :=
  { s with
    selectedNote := some n
    isSummaryModalOpen := true
    isGeneratingSummary := true
    summaryError := none
    summary := "" }

/-- The continuation of `handleGenerateSummary` that runs when
`summarizeText` settles: `setSummary(result)` on success,
`setSummaryError(err.message || 'Failed to generate summary. Please try
again.')` on failure, and `setIsGeneratingSummary(false)` in the `finally`.
No resource-identity check is performed. -/
def resolveSummaryOutcome (o : ApiOutcome) (s : SummaryState) : SummaryState :=
  match summarizeText o with
  | Except.ok r => { s with summary := r, isGeneratingSummary := false }
  | Except.error m =>
      { s with
        summaryError := some (jsStrOr m "Failed to generate summary. Please try again.")
        isGeneratingSummary := false }

/-! ## IngestionController: validation and submit in `handleSubmit`
(KnowledgeHub.tsx) and `uploadFile` (uploadService.ts) -/

/-- The note-draft kinds (`'TEXT' | 'LINK' | 'FILE'` in `newNote.type`). -/
inductive DraftKind where
  | TEXT
  | LINK
  | FILE
deriving DecidableEq, Repr

/-- The `newNote` draft state; `file` models the selected `File` object by
its name (only presence is inspected by `handleSubmit`). -/
structure Draft where
  title : String
  content : String
  kind : DraftKind
  subject : String
  tags : List String
  file : Option String
  isPublic : Bool
deriving DecidableEq, Repr

/-- The local validation failures of `handleSubmit`, in source order. -/
inductive ValidationError where
  | missingTitle
  | invalidUrl
  | missingContent
  | missingFile
deriving DecidableEq, Repr

/-- Embedding of the validation prologue of `handleSubmit` (KnowledgeHub.tsx):
the four early-return checks, in the code's order.  `some e` means the
corresponding toast is raised and the function returns before building the
`FormData` — no network request is ever issued in that case. -/
def validateDraft (d : Draft) : Option ValidationError :=
  if strTrim d.title = "" then some ValidationError.missingTitle
  else if d.kind = DraftKind.LINK ∧ (d.content = "" ∨ strStartsWith (strTrim d.content) "http" = false) then
    some ValidationError.invalidUrl
  else if d.kind = DraftKind.TEXT ∧ strTrim d.content = "" then some ValidationError.missingContent
  else if d.kind = DraftKind.FILE ∧ d.file = none then some ValidationError.missingFile
  else none

/-- The payload of a successful `uploadFile` response
(`UploadResponse` in uploadService.ts). -/
structure UploadResponse where
  id : String
  title : String
  rtype : String
  url : Option String
  tags : Option (List String)
  uploadDate : Option String
  size : Option String
  content : Option String
  message : Option String
deriving DecidableEq, Repr

/-- The provisional `uploadedNote` that `handleSubmit` builds directly from
the upload response (the optimistic insert). -/
def mkUploadedNote (now : String) (r : UploadResponse) : Note :=
  { id := r.id
    title := some r.title
    type :=
      if r.rtype = "text" then NoteType.other
      else if r.rtype = "link" then NoteType.url
      else getFileTypeFromUrl (jsOr r.url "")
    url := jsOr r.url "#"
    tags := r.tags.getD []
    uploadDate := jsOr r.uploadDate now
    rating := 0
    size := r.size
    content := jsOr r.content ""
    summary := jsOr r.content "" }

/-- The two list updates `handleSubmit` performs after a successful upload,
in program order: first `setNotes(prev => [uploadedNote, ...prev])`
(optimistic prepend, synchronous, before the re-fetch is issued), then the
awaited `getNotes()` re-fetch, whose success replaces the list wholesale
with the normalized records and whose failure (including a conversion
`TypeError`) is caught and keeps the optimistic list.  The result pair is
(list after the optimistic insert, list after the re-fetch settles). -/
def handleSubmitPhases (now : String) (r : UploadResponse) (refetch : FetchOutcome)
    (prev : List Note) : List Note × List Note :=
  let optimistic := mkUploadedNote now r :: prev
  match refetch with
  | FetchOutcome.ok records =>
      match normalizeAll now records with
      | Except.ok formatted => (optimistic, formatted)
      | Except.error _ => (optimistic, optimistic)
  | FetchOutcome.fail _ => (optimistic, optimistic)

/-! ## Concrete sample data used by counterexamples and witnesses -/

/-- A well-formed text-note backend record. -/
def recA : RawNote :=
  { id := some "1"
    title := some "Alpha notes"
    file_url := none
    summary := some "alpha summary"
    extracted_content := none
    created_at := some "2024-01-01" }

/-- A second well-formed text-note backend record, distinct from `recA`. -/
def recB : RawNote :=
  { id := some "2"
    title := some "Beta notes"
    file_url := none
    summary := some "beta summary"
    extracted_content := none
    created_at := some "2024-01-02" }

/-- The frontend note that `convertBackendNoteToFrontend` produces from `recA`. -/
def noteA : Note :=
  { id := "1"
    title := some "Alpha notes"
    type := NoteType.other
    url := "#"
    tags := []
    uploadDate := "2024-01-01"
    rating := 0
    size := some ""
    content := "alpha summary"
    summary := "alpha summary" }

/-- The frontend note that `convertBackendNoteToFrontend` produces from `recB`. -/
def noteB : Note :=
  { id := "2"
    title := some "Beta notes"
    type := NoteType.other
    url := "#"
    tags := []
    uploadDate := "2024-01-02"
    rating := 0
    size := some ""
    content := "beta summary"
    summary := "beta summary" }

/-- Sanity check: `noteA` is exactly the normalization of `recA`. -/
theorem normalizeAll_recA : normalizeAll "" [recA] = Except.ok [noteA] := rfl

/-- Sanity check: `noteB` is exactly the normalization of `recB`. -/
theorem normalizeAll_recB : normalizeAll "" [recB] = Except.ok [noteB] := rfl

/-- The initial component state: empty list, not searching, no toasts. -/
def s0 : SearchState :=
  { notes := []
    isSearching := false
    toasts := []
    searchQuery := "" }

/-- The initial summary state: nothing selected, modal closed. -/
def sSummary0 : SummaryState :=
  { selectedNote := none
    isSummaryModalOpen := false
    summary := ""
    isGeneratingSummary := false
    summaryError := none }

/-! ## C3 — normalization totality -/

/-- A malformed backend record whose `id` is missing/null. -/
def c3BadRecord : RawNote :=
  { id := none
    title := some "Orphan"
    file_url := none
    summary := some "body"
    extracted_content := none
    created_at := none }

/-- C3 counterexample: the claim says `convertBackendNoteToFrontend` never
fails, even on a record with a missing or null id.  On such a record the
code evaluates `note.id.toString()` and throws a `TypeError`; the embedded
conversion produces that error instead of a `Resource`. -/
theorem C3_counterexample :
    exceptErr (convertBackendNoteToFrontend "" c3BadRecord)
      = some "TypeError: Cannot read properties of null (reading toString)"
    ∧ exceptIsOk (convertBackendNoteToFrontend "" c3BadRecord) = false := by decide

/-- C3 (amended): conversion never fails for a record whose `id` is present
(any other malformation is absorbed best-effort), and fails with the
`TypeError` exactly when `id` is missing/null. -/
theorem C3_amended (now : String) (note : RawNote) :
    (note.id.isSome = true → exceptIsOk (convertBackendNoteToFrontend now note) = true)
    ∧ (note.id = none → convertBackendNoteToFrontend now note
        = Except.error "TypeError: Cannot read properties of null (reading toString)") := by
  cases hid : note.id with
  | none =>
      refine ⟨?_, ?_⟩
      · intro h; simp at h
      · intro _; simp [convertBackendNoteToFrontend, hid]
  | some i =>
      refine ⟨?_, ?_⟩
      · intro _; simp [convertBackendNoteToFrontend, exceptIsOk, hid]
      · intro h; simp at h

/-- C3 witness: `C3_amended` applied to the concrete record `recA`. -/
theorem C3_witness :
    recA.id.isSome = true ∧ exceptIsOk (convertBackendNoteToFrontend "" recA) = true :=
  ⟨by decide, (C3_amended "" recA).1 (by decide)⟩

/-! ## C4 — the null-file_url example and the absent/empty file_url rule -/

/-- C4: on the record `{id:"7", title:"Notes", file_url:null, summary:"Key
ideas on recursion"}` the classifier yields the text category (the code's
`'other'`), the placeholder URL `'#'` (no dereferenceable value: the
notes-grid Open button treats `'#'` as absent), and display content `"Key
ideas on recursion"`; and for every record whose `file_url` is absent, null
or empty, the category is the text category `'other'`. -/
theorem C4_classifier_example :
    ((exceptGet (convertBackendNoteToFrontend "" c4Record)).map
        (fun n => (n.type, n.url, noteHasOpenableUrl n, n.content))
      = some (NoteType.other, "#", false, "Key ideas on recursion"))
    ∧ ∀ note : RawNote, (note.file_url = none ∨ note.file_url = some "") →
        classifyNote note = NoteType.other := by
  refine ⟨by decide, ?_⟩
  intro note h
  rcases h with h | h <;> simp [classifyNote, jsOr, h]

/-- C4 witness: the universally quantified part of `C4_classifier_example`
applied to a concrete record with empty `file_url`. -/
theorem C4_witness :
    classifyNote
      { id := none
        title := none
        file_url := some ""
        summary := none
        extracted_content := none
        created_at := none } = NoteType.other :=
  C4_classifier_example.2 _ (Or.inr rfl)

/-! ## C5 — hosted URL with a storage marker but no matching extension -/

/-- A Cloudinary-hosted URL with no recognizable file extension. -/
def c5Record : RawNote :=
  { id := some "9"
    title := some "Hosted file"
    file_url := some "https://res.cloudinary.com/demo/upload/v1/file"
    summary := none
    extracted_content := none
    created_at := none }

/-- C5 counterexample: the claim says such a record ends up in the text
category `'other'`.  The fall-through `getFileTypeFromUrl` classifies every
`http`-prefixed URL with no matching extension as `'url'`, so the record's
category is `'url'`, not `'other'`. -/
theorem C5_counterexample :
    classifyNote c5Record = NoteType.url ∧ NoteType.url ≠ NoteType.other := by decide

/-- C5 (amended): for every record whose `file_url` is an absolute
`http(s)` URL that matches none of the PDF/DOCX/image extension patterns
and contains a file-storage marker (`/uploads/`, `cloudinary` or
`res.cloudinary.com`), classification falls through to
`getFileTypeFromUrl`, whose final `startsWith('http')` rule yields category
`'url'` — not the `'other'`/text category the spec states. -/
theorem C5_amended (note : RawNote) (u : String)
    (hfu : note.file_url = some u)
    (h1 : strStartsWith u "http://" = true ∨ strStartsWith u "https://" = true)
    (h2 : strIncludes u ".pdf" = false)
    (h3 : strIncludes u ".docx" = false)
    (h4 : strIncludes u ".doc" = false)
    (h5 : matchesImageExt u = false)
    (h6 : (strIncludes u "/uploads/" || strIncludes u "cloudinary"
            || strIncludes u "res.cloudinary.com") = true) :
    classifyNote note = NoteType.url := by
  have hne : ¬ u = "" := by
    intro he; subst he
    rcases h1 with h1 | h1 <;> exact absurd h1 (by decide)
  have hnN : ¬ u = "None" := by
    intro he; subst he
    rcases h1 with h1 | h1 <;> exact absurd h1 (by decide)
  have hhttp : strStartsWith u "http" = true := by
    rcases h1 with h1 | h1 <;> exact lcPre_weaken _ _ _ (by decide) h1
  have hcond : (strStartsWith u "http://" || strStartsWith u "https://") = true := by
    rcases h1 with h1 | h1 <;> simp [h1]
  have hmark : (!strIncludes u "/uploads/" && !strIncludes u "cloudinary"
      && !strIncludes u "res.cloudinary.com") = false := by
    cases ha : strIncludes u "/uploads/" <;> cases hb : strIncludes u "cloudinary" <;>
      cases hc : strIncludes u "res.cloudinary.com" <;> simp_all
  simp [classifyNote, jsOr, hfu, hne, hnN, hcond, h2, h3, h4, h5, hmark,
    getFileTypeFromUrl, hhttp]

/-- C5 witness: `C5_amended` applied to the concrete Cloudinary record. -/
theorem C5_witness :
    c5Record.file_url = some "https://res.cloudinary.com/demo/upload/v1/file"
    ∧ classifyNote c5Record = NoteType.url :=
  ⟨rfl, C5_amended c5Record _ rfl (Or.inr (by decide)) (by decide) (by decide)
    (by decide) (by decide) (by decide)⟩

/-! ## C1 — search race resolution -/

/-- The state after issuing search A (query "alpha"), issuing search B
(query "beta"), and B's response arriving first and being applied. -/
def c1AfterB : SearchState :=
  resolveSearch "" "beta" (FetchOutcome.ok [recB]) (issueSearch "beta" (issueSearch "alpha" s0))

/-- The state after A's stale response then arrives and is applied. -/
def c1Final : SearchState :=
  resolveSearch "" "alpha" (FetchOutcome.ok [recA]) c1AfterB

/-- C1 counterexample: the claim says the displayed list after both
responses resolve equals B's result, never A's.  `handleSearch` performs no
request sequencing, so A's stale response overwrites B's already-applied
result: the final list is A's normalized payload, not B's. -/
theorem C1_counterexample :
    c1Final.notes ≠ c1AfterB.notes ∧ c1Final.notes = [noteA] ∧ c1AfterB.notes = [noteB] := by
  decide

/-- C1 (amended): `handleSearch` tracks no request sequence number, so
responses are applied in arrival order and the last-arriving response wins.
For requests issued in order A then B where B's response arrives before
A's, the displayed list after both resolve equals A's normalized result,
regardless of B's payload. -/
theorem C1_amended (now qA qB : String) (pA pB : List RawNote) (s : SearchState)
    (lA : List Note)
    (hA : ¬ (strTrim qA).length < 2) (_hB : ¬ (strTrim qB).length < 2)
    (hnorm : normalizeAll now pA = Except.ok lA) :
    (resolveSearch now qA (FetchOutcome.ok pA)
      (resolveSearch now qB (FetchOutcome.ok pB)
        (issueSearch qB (issueSearch qA s)))).notes = lA := by
  simp [resolveSearch, hA, hnorm]

/-- C1 witness: `C1_amended` on the concrete two-request race of
`C1_counterexample`. -/
theorem C1_witness :
    (¬ (strTrim "alpha").length < 2)
    ∧ (resolveSearch "" "alpha" (FetchOutcome.ok [recA])
        (resolveSearch "" "beta" (FetchOutcome.ok [recB])
          (issueSearch "beta" (issueSearch "alpha" s0)))).notes = [noteA] :=
  ⟨by decide, C1_amended "" "alpha" "beta" [recA] [recB] s0 [noteA]
    (by decide) (by decide) rfl⟩

/-! ## C2 — summary session identity guard -/

/-- The state after opening a summary for `noteA` and then immediately for
`noteB` (B is now the open resource, loading). -/
def c2AfterB : SummaryState := startSummary noteB (startSummary noteA sSummary0)

/-- The state after A's stale response resolves with A's summary text. -/
def c2Final : SummaryState :=
  resolveSummaryOutcome (ApiOutcome.ok "stale summary of Alpha") c2AfterB

/-- C2 counterexample: the claim says resolving A's stale response leaves
B's session state unaffected and the UI never displays a summary whose
resource identity differs from the open resource.  The continuation of
`handleGenerateSummary` commits `setSummary(result)` with no identity
check: B's session is mutated, and the displayed summary is A's while B is
the selected note. -/
theorem C2_counterexample :
    c2Final ≠ c2AfterB
    ∧ c2Final.selectedNote = some noteB
    ∧ c2Final.summary = "stale summary of Alpha"
    ∧ c2Final.isGeneratingSummary = false := by decide

/-- C2 (amended): no resource-identity check exists — resolving any stale
successful response unconditionally writes its summary text into the
session and clears the loading flag while the later-opened note stays
selected, so the UI can display a summary whose resource identity differs
from the currently open resource. -/
theorem C2_amended (s : SummaryState) (nA nB : Note) (r : String) :
    resolveSummaryOutcome (ApiOutcome.ok r) (startSummary nB (startSummary nA s))
      = { startSummary nB (startSummary nA s) with summary := r, isGeneratingSummary := false }
    ∧ (resolveSummaryOutcome (ApiOutcome.ok r)
        (startSummary nB (startSummary nA s))).selectedNote = some nB := by
  constructor <;> simp [resolveSummaryOutcome, summarizeText, generateSummary, startSummary]

/-! ## C6 — optimistic insert then reconcile -/

/-- C6: after a successful upload the provisional note is prepended to the
previous list (phase 1, before the re-fetch is issued); when the re-fetch
succeeds its normalized output replaces the list wholesale; when it fails
the optimistic list is retained. -/
theorem C6_optimistic_then_reconcile (now : String) (r : UploadResponse)
    (refetch : FetchOutcome) (prev : List Note) :
    (handleSubmitPhases now r refetch prev).1 = mkUploadedNote now r :: prev
    ∧ (∀ records l, refetch = FetchOutcome.ok records →
        normalizeAll now records = Except.ok l →
        (handleSubmitPhases now r refetch prev).2 = l)
    ∧ (∀ m, refetch = FetchOutcome.fail m →
        (handleSubmitPhases now r refetch prev).2 = mkUploadedNote now r :: prev) := by
  refine ⟨?_, ?_, ?_⟩
  · cases refetch with
    | ok records =>
        cases hn : normalizeAll now records <;> simp [handleSubmitPhases, hn]
    | fail m => simp [handleSubmitPhases]
  · intro records l hr hn
    subst hr
    simp [handleSubmitPhases, hn]
  · intro m hr
    subst hr
    simp [handleSubmitPhases]

/-- A concrete successful upload response. -/
def upResp : UploadResponse :=
  { id := "10"
    title := "New note"
    rtype := "text"
    url := none
    tags := none
    uploadDate := some "2024-02-02"
    size := some "1 KB"
    content := some "fresh content"
    message := some "Note saved successfully!" }

/-- C6 witness: `C6_optimistic_then_reconcile` on a concrete upload whose
re-fetch fails — the optimistic entry is prepended and retained. -/
theorem C6_witness :
    (handleSubmitPhases "" upResp (FetchOutcome.fail "boom") []).1
      = mkUploadedNote "" upResp :: []
    ∧ (handleSubmitPhases "" upResp (FetchOutcome.fail "boom") []).2
      = mkUploadedNote "" upResp :: [] :=
  ⟨(C6_optimistic_then_reconcile "" upResp (FetchOutcome.fail "boom") []).1,
   (C6_optimistic_then_reconcile "" upResp (FetchOutcome.fail "boom") []).2.2 "boom" rfl⟩

/-! ## C7 — summary failure error message -/

/-- The summary session right after opening a summary for `noteA`. -/
def c7Session : SummaryState := startSummary noteA sSummary0

/-- C7 counterexample: the claim says the error shown on failure is the
server-provided detail verbatim when present.  For a server failure with
detail "quota exceeded", `summarizeText` (geminiService.ts) swallows the
detail and rethrows the generic message, which is what the session
displays. -/
theorem C7_counterexample :
    (resolveSummaryOutcome (ApiOutcome.serverError (some "quota exceeded")) c7Session).summaryError
      = some "Failed to get summary. Please try again."
    ∧ (resolveSummaryOutcome (ApiOutcome.serverError (some "quota exceeded"))
        c7Session).summaryError ≠ some "quota exceeded" := by decide

/-- C7 (amended): on every failing summary request the session transitions
to failed (loading cleared, error set), but the error message is always the
generic "Failed to get summary. Please try again." — `summarizeText`
replaces every error, so the server-provided detail is never shown
verbatim. -/
theorem C7_amended (o : ApiOutcome) (m : String) (s : SummaryState)
    (h : generateSummary o = Except.error m) :
    resolveSummaryOutcome o s
      = { s with
          summaryError := some "Failed to get summary. Please try again."
          isGeneratingSummary := false } := by
  cases o with
  | ok r => simp [generateSummary] at h
  | serverError d => simp [resolveSummaryOutcome, summarizeText, generateSummary, jsStrOr]
  | networkError msg => simp [resolveSummaryOutcome, summarizeText, generateSummary, jsStrOr]

/-- C7 witness: `C7_amended` on a server error carrying the detail
"quota exceeded". -/
theorem C7_witness :
    generateSummary (ApiOutcome.serverError (some "quota exceeded"))
      = Except.error "quota exceeded"
    ∧ resolveSummaryOutcome (ApiOutcome.serverError (some "quota exceeded")) sSummary0
      = { sSummary0 with
          summaryError := some "Failed to get summary. Please try again."
          isGeneratingSummary := false } :=
  ⟨rfl, C7_amended (ApiOutcome.serverError (some "quota exceeded")) "quota exceeded"
    sSummary0 rfl⟩

/-! ## C8 — LINK draft validation gating -/

/-- A LINK draft with an invalid URL and an empty title. -/
def c8NoTitle : Draft :=
  { title := ""
    content := "not-a-url"
    kind := DraftKind.LINK
    subject := ""
    tags := []
    file := none
    isPublic := false }

/-- C8 counterexample: the claim says every LINK draft with invalid content
fails with `invalidUrl`.  The title check runs first in `handleSubmit`, so
a LINK draft with an empty title and content "not-a-url" fails with
`missingTitle`, not `invalidUrl` (still before any network call). -/
theorem C8_counterexample :
    validateDraft c8NoTitle = some ValidationError.missingTitle
    ∧ validateDraft c8NoTitle ≠ some ValidationError.invalidUrl := by decide

/-- C8 (amended): for every LINK draft whose content is empty or does not
start with "http" after trimming, validation fails before any network call
(`validateDraft` is `some`); the failure is `invalidUrl` provided the
title survives its own (earlier) check, i.e. is non-empty after trimming. -/
theorem C8_amended (d : Draft) (hk : d.kind = DraftKind.LINK)
    (hc : d.content = "" ∨ strStartsWith (strTrim d.content) "http" = false) :
    (strTrim d.title ≠ "" → validateDraft d = some ValidationError.invalidUrl)
    ∧ validateDraft d ≠ none := by
  rcases hc with hc | hc <;> by_cases ht : strTrim d.title = "" <;>
    simp [validateDraft, ht, hk, hc]

/-- A LINK draft with a non-empty title and the invalid URL "not-a-url". -/
def c8Draft : Draft :=
  { title := "My link"
    content := "not-a-url"
    kind := DraftKind.LINK
    subject := ""
    tags := []
    file := none
    isPublic := false }

/-- C8 witness: `C8_amended` on the concrete "not-a-url" draft. -/
theorem C8_witness :
    (strTrim c8Draft.title ≠ "" → validateDraft c8Draft = some ValidationError.invalidUrl)
    ∧ validateDraft c8Draft ≠ none :=
  C8_amended c8Draft (by decide) (Or.inr (by decide))

/-! ## C9 — search failure handling -/

/-- A search state with one displayed note and no toasts. -/
def s9 : SearchState :=
  { notes := [noteA]
    isSearching := false
    toasts := []
    searchQuery := "" }

/-- C9 counterexample: the claim says every search failure raises a
user-visible notification.  A failure of the short-query list-all fallback
(query "a") leaves the list unchanged but raises no toast — the `catch`
only calls `console.error`, silently swallowing the failure. -/
theorem C9_counterexample :
    (handleSearch "" "a" (FetchOutcome.fail "network down") s9).toasts = []
    ∧ (handleSearch "" "a" (FetchOutcome.fail "network down") s9).notes = s9.notes := by decide

/-- C9 (amended): on any search request failure the resource list is left
unchanged; the filtered-search branch raises the "Search failed" toast, but
the short-query list-all fallback branch raises no user-visible
notification (the failure is only logged to the console). -/
theorem C9_amended (now q m : String) (s : SearchState) :
    (handleSearch now q (FetchOutcome.fail m) s).notes = s.notes
    ∧ ((strTrim q).length < 2 →
        (handleSearch now q (FetchOutcome.fail m) s).toasts = s.toasts)
    ∧ (¬ (strTrim q).length < 2 →
        (handleSearch now q (FetchOutcome.fail m) s).toasts = "Search failed" :: s.toasts) := by
  by_cases h : (strTrim q).length < 2 <;>
    simp [handleSearch, issueSearch, resolveSearch, h]

/-- C9 witness: `C9_amended` on a short query (no toast) and a long query
(toast raised), both failing. -/
theorem C9_witness :
    ((strTrim "a").length < 2
      ∧ (handleSearch "" "a" (FetchOutcome.fail "boom") s0).toasts = s0.toasts)
    ∧ (¬ (strTrim "ab").length < 2
      ∧ (handleSearch "" "ab" (FetchOutcome.fail "boom") s0).toasts = "Search failed" :: s0.toasts) :=
  ⟨⟨by decide, (C9_amended "" "a" "boom" s0).2.1 (by decide)⟩,
   ⟨by decide, (C9_amended "" "ab" "boom" s0).2.2 (by decide)⟩⟩

/-- Sanity check: an extensionless absolute URL falls to the
`startsWith('http')` rule of `getFileTypeFromUrl`. -/
theorem getFileTypeFromUrl_plain : getFileTypeFromUrl "https://host/a/b" = NoteType.url := by
  decide

/-- Sanity check: the image-extension match is case-insensitive. -/
theorem matchesImageExt_upper : matchesImageExt "https://h/p.PNG" = true := by decide
